import Mathlib

/-!
Verification of the VeloxDB storage-engine core against its source
(`src/cpp/include/velox/storage/storage_engine.hpp`,
`src/cpp/include/velox/core.hpp`, `src/cpp/src/velox/core.cpp`).
Machine integers are modelled as `Nat`/`Int` with explicit `% 2^w`
where overflow matters; fallible operations return `Option`/`Except`.
-/

namespace Velox

/-! ## Byte-level utilities shared by the page model -/

/-- A list of bytes is well formed when each entry fits in one byte. -/
def allBytes (l : List Nat) : Prop := ∀ x ∈ l, x < 256

/-- Overwrite `d.length` bytes of `p` starting at offset `off`. -/
def writeBytes (p : List Nat) (off : Nat) (d : List Nat) : List Nat :=
  p.take off ++ d ++ p.drop (off + d.length)

/-- Read `len` bytes of `p` starting at offset `off`. -/
def readBytes (p : List Nat) (off len : Nat) : List Nat :=
  (p.drop off).take len

theorem length_writeBytes (p : List Nat) (off : Nat) (d : List Nat)
    (h : off + d.length ≤ p.length) :
    (writeBytes p off d).length = p.length := by
  simp [writeBytes]
  omega

theorem readBytes_writeBytes (p : List Nat) (off : Nat) (d : List Nat)
    (h : off + d.length ≤ p.length) :
    readBytes (writeBytes p off d) off d.length = d := by
  unfold readBytes writeBytes
  have htake : (p.take off).length = off := by simp; omega
  rw [List.append_assoc, List.drop_left' htake, List.take_left]

theorem take_writeBytes (p : List Nat) (off n : Nat) (d : List Nat)
    (hn : n ≤ off) (hoff : off ≤ p.length) :
    (writeBytes p off d).take n = p.take n := by
  unfold writeBytes
  rw [List.take_append_of_le_length (by simp; omega)]
  rw [List.take_append_of_le_length (by simp; omega)]
  rw [List.take_take, Nat.min_eq_left hn]

theorem drop_writeBytes (p : List Nat) (off n : Nat) (d : List Nat)
    (hn : off + d.length ≤ n) (hnp : n ≤ p.length) :
    (writeBytes p off d).drop n = p.drop n := by
  unfold writeBytes
  rw [List.drop_append_eq_append_drop]
  rw [List.drop_append_eq_append_drop]
  rw [List.drop_eq_nil_of_le (by simp; omega), List.nil_append]
  rw [List.drop_eq_nil_of_le (by simp; omega), List.nil_append]
  rw [List.drop_drop]
  congr 1
  simp
  omega

/-! ## CRC-32 checksum

Modelled from the spec: the C++ implementation of
`velox::utils::hash::crc32` (declared in `include/velox/utils/hash.hpp`)
and of `PageHeader::update_checksum` / `PageHeader::verify_checksum`
(declared at `storage_engine.hpp:143-150`) is not part of the sources;
the spec says the 32-bit checksum is "recomputed over the entire page
excluding the checksum field itself and must match exactly".  We model
the declared `crc32` as the standard reflected CRC-32 (polynomial
`0xEDB88320`), processing one byte at a time. -/

def crcPoly : Nat := 0xEDB88320

/-- One bit-step of the reflected CRC-32: shift right, conditionally
xor the reflected polynomial depending on the bit shifted out. -/
def crcStep (s : Nat) : Nat :=
  if s % 2 = 1 then (s >>> 1) ^^^ crcPoly else s >>> 1

/-- Explicit inverse of `crcStep` on 32-bit states. -/
def crcUnstep (t : Nat) : Nat :=
  if 2 ^ 31 ≤ t then 2 * (t ^^^ crcPoly) + 1 else 2 * t

theorem crcStep_lt {s : Nat} (h : s < 2 ^ 32) : crcStep s < 2 ^ 32 := by
  unfold crcStep
  have hs : s >>> 1 = s / 2 := by
    rw [Nat.shiftRight_eq_div_pow]
  have h2 : s / 2 < 2 ^ 32 := by omega
  rw [hs]
  split
  · exact Nat.xor_lt_two_pow (by omega) (by norm_num [crcPoly])
  · omega

theorem crcUnstep_crcStep {s : Nat} (h : s < 2 ^ 32) :
    crcUnstep (crcStep s) = s := by
  unfold crcStep crcUnstep
  have hs : s >>> 1 = s / 2 := by
    rw [Nat.shiftRight_eq_div_pow]
  have h2 : s / 2 < 2 ^ 31 := by omega
  by_cases hpar : s % 2 = 1
  · rw [if_pos hpar, hs]
    have hbit : ((s / 2) ^^^ crcPoly).testBit 31 = true := by
      rw [Nat.testBit_xor, Nat.testBit_lt_two_pow h2]
      decide
    rw [if_pos (Nat.testBit_implies_ge hbit)]
    rw [Nat.xor_assoc, Nat.xor_self, Nat.xor_zero]
    omega
  · rw [if_neg hpar, hs, if_neg (by omega)]
    omega

theorem crcStep_inj {s₁ s₂ : Nat} (h₁ : s₁ < 2 ^ 32) (h₂ : s₂ < 2 ^ 32)
    (h : crcStep s₁ = crcStep s₂) : s₁ = s₂ := by
  have := congrArg crcUnstep h
  rwa [crcUnstep_crcStep h₁, crcUnstep_crcStep h₂] at this

/-- `n` bit-steps of the CRC-32 state machine. -/
def crcSteps : Nat → Nat → Nat
  | 0, s => s
  | n + 1, s => crcSteps n (crcStep s)

theorem crcSteps_lt : ∀ n {s : Nat}, s < 2 ^ 32 → crcSteps n s < 2 ^ 32
  | 0, _, h => h
  | n + 1, _, h => crcSteps_lt n (crcStep_lt h)

theorem crcSteps_inj : ∀ n {s₁ s₂ : Nat}, s₁ < 2 ^ 32 → s₂ < 2 ^ 32 →
    crcSteps n s₁ = crcSteps n s₂ → s₁ = s₂
  | 0, _, _, _, _, h => h
  | n + 1, _, _, h₁, h₂, h =>
    crcStep_inj h₁ h₂ (crcSteps_inj n (crcStep_lt h₁) (crcStep_lt h₂) h)

/-- Absorb one byte into the CRC-32 state: xor it into the low bits,
then run eight bit-steps. -/
def crc32Update (s b : Nat) : Nat := crcSteps 8 (s ^^^ b)

theorem xor_left_cancel {a b₁ b₂ : Nat} (h : a ^^^ b₁ = a ^^^ b₂) :
    b₁ = b₂ := by
  have := congrArg (fun x => a ^^^ x) h
  simpa [← Nat.xor_assoc] using this

theorem xor_right_cancel {a₁ a₂ b : Nat} (h : a₁ ^^^ b = a₂ ^^^ b) :
    a₁ = a₂ := by
  rw [Nat.xor_comm a₁ b, Nat.xor_comm a₂ b] at h
  exact xor_left_cancel h

theorem crc32Update_lt {s b : Nat} (hs : s < 2 ^ 32) (hb : b < 256) :
    crc32Update s b < 2 ^ 32 :=
  crcSteps_lt 8 (Nat.xor_lt_two_pow hs (by omega))

theorem crc32Update_inj_state {s₁ s₂ b : Nat} (h₁ : s₁ < 2 ^ 32)
    (h₂ : s₂ < 2 ^ 32) (hb : b < 256)
    (h : crc32Update s₁ b = crc32Update s₂ b) : s₁ = s₂ := by
  have hb32 : b < 2 ^ 32 := by omega
  exact xor_right_cancel
    (crcSteps_inj 8 (Nat.xor_lt_two_pow h₁ hb32) (Nat.xor_lt_two_pow h₂ hb32) h)

theorem crc32Update_inj_byte {s b₁ b₂ : Nat} (hs : s < 2 ^ 32)
    (h₁ : b₁ < 256) (h₂ : b₂ < 256)
    (h : crc32Update s b₁ = crc32Update s b₂) : b₁ = b₂ := by
  exact xor_left_cancel
    (crcSteps_inj 8 (Nat.xor_lt_two_pow hs (by omega))
      (Nat.xor_lt_two_pow hs (by omega)) h)

def crcInit : Nat := 0xFFFFFFFF

/-- CRC-32 of a byte sequence: initial state all-ones, absorb each byte,
final complement. -/
def crc32 (data : List Nat) : Nat := crcInit ^^^ data.foldl crc32Update crcInit

theorem foldl_crc32Update_lt : ∀ (l : List Nat) {s : Nat}, s < 2 ^ 32 →
    allBytes l → l.foldl crc32Update s < 2 ^ 32
  | [], _, hs, _ => hs
  | b :: l, _, hs, hl => by
    exact foldl_crc32Update_lt l (crc32Update_lt hs (hl b (by simp)))
      (fun x hx => hl x (by simp [hx]))

theorem foldl_crc32Update_inj : ∀ (l : List Nat) {s₁ s₂ : Nat},
    s₁ < 2 ^ 32 → s₂ < 2 ^ 32 → allBytes l →
    l.foldl crc32Update s₁ = l.foldl crc32Update s₂ → s₁ = s₂
  | [], _, _, _, _, _, h => h
  | b :: l, _, _, h₁, h₂, hl, h => by
    have hb : b < 256 := hl b (by simp)
    have hl' : allBytes l := fun x hx => hl x (by simp [hx])
    exact crc32Update_inj_state h₁ h₂ hb
      (foldl_crc32Update_inj l (crc32Update_lt h₁ hb) (crc32Update_lt h₂ hb)
        hl' h)

theorem crc32_lt {l : List Nat} (hl : allBytes l) : crc32 l < 2 ^ 32 :=
  Nat.xor_lt_two_pow (by norm_num [crcInit])
    (foldl_crc32Update_lt l (by norm_num [crcInit]) hl)

/-- CRC-32 distinguishes any two byte sequences that differ in exactly
one position: a single changed byte always changes the checksum. -/
theorem crc32_ne_single_diff (pre suf : List Nat) {b₁ b₂ : Nat}
    (hpre : allBytes pre) (hsuf : allBytes suf)
    (h₁ : b₁ < 256) (h₂ : b₂ < 256) (hne : b₁ ≠ b₂) :
    crc32 (pre ++ b₁ :: suf) ≠ crc32 (pre ++ b₂ :: suf) := by
  intro h
  unfold crc32 at h
  have h' := xor_left_cancel h
  rw [List.foldl_append, List.foldl_append] at h'
  simp only [List.foldl_cons] at h'
  have hs : pre.foldl crc32Update crcInit < 2 ^ 32 :=
    foldl_crc32Update_lt pre (by norm_num [crcInit]) hpre
  have := foldl_crc32Update_inj suf
    (crc32Update_lt hs h₁) (crc32Update_lt hs h₂) hsuf h'
  exact hne (crc32Update_inj_byte hs h₁ h₂ this)

/-! ## Page bytes and the checksum field

The on-disk page (`storage_engine.hpp`) is 4096 bytes: a 64-byte
`PageHeader` followed by 4032 payload bytes.  By the C++ layout of
`PageHeader` (verified below in the layout model) the 32-bit `checksum`
member occupies byte offsets 48..51 of the page. -/

def PAGE_SIZE : Nat := 4096
def PAGE_HEADER_SIZE : Nat := 64
def PAGE_DATA_SIZE : Nat := PAGE_SIZE - PAGE_HEADER_SIZE

/-- Byte offset of `PageHeader::checksum` within the page. -/
def checksumOff : Nat := 48

/-- Little-endian decoding of a 4-byte sequence into a 32-bit value. -/
def decodeLE32 : List Nat → Nat
  | [b0, b1, b2, b3] => b0 + 256 * b1 + 65536 * b2 + 16777216 * b3
  | _ => 0

/-- Little-endian encoding of a 32-bit value into 4 bytes. -/
def le32Bytes (v : Nat) : List Nat :=
  [v % 256, v / 256 % 256, v / 65536 % 256, v / 16777216 % 256]

theorem length_le32Bytes (v : Nat) : (le32Bytes v).length = 4 := rfl

theorem allBytes_le32Bytes (v : Nat) : allBytes (le32Bytes v) := by
  intro x hx
  simp [le32Bytes] at hx
  rcases hx with h | h | h | h <;> omega

theorem decodeLE32_le32Bytes {v : Nat} (h : v < 2 ^ 32) :
    decodeLE32 (le32Bytes v) = v := by
  simp [le32Bytes, decodeLE32]
  omega

/-- The bytes the checksum is computed over: the whole page with the
four checksum bytes cut out. -/
def checksumInput (p : List Nat) : List Nat := p.take 48 ++ p.drop 52

/-- The checksum stored in the page's header field. -/
def storedChecksum (p : List Nat) : Nat := decodeLE32 (readBytes p 48 4)

/-- Modelled from the spec: `PageHeader::update_checksum`
(`storage_engine.hpp:143-144`, no implementation in the sources)
"recomputes and stores the checksum", computed "over the entire page
excluding the checksum field itself". -/
def update_checksum (p : List Nat) : List Nat :=
  writeBytes p 48 (le32Bytes (crc32 (checksumInput p)))

/-- Modelled from the spec: `PageHeader::verify_checksum`
(`storage_engine.hpp:146-150`, no implementation in the sources)
"recomputes and compares, returning false on mismatch". -/
def verify_checksum (p : List Nat) : Bool :=
  crc32 (checksumInput p) == storedChecksum p

/-- Modelled from the spec: `verify_checksum` is a `const noexcept`
member; run it as a state transformer to make its read-only behaviour
an explicit theorem: it returns the verdict and the page it was
given. -/
def verify_checksum_run (p : List Nat) : Bool × List Nat :=
  (verify_checksum p, p)

/-- Flip bit `j` of the byte at offset `i`. -/
def flipBit (p : List Nat) (i j : Nat) : List Nat :=
  p.set i (p.getD i 0 ^^^ 2 ^ j)

theorem getD_eq_getElem0 {l : List Nat} {n : Nat} (h : n < l.length) :
    l.getD n 0 = l[n] := by
  simp [List.getD_eq_getElem?_getD, List.getElem?_eq_getElem h]

theorem allBytes_checksumInput {p : List Nat} (hb : allBytes p) :
    allBytes (checksumInput p) := by
  intro x hx
  rcases List.mem_append.mp hx with h | h
  · exact hb x (List.mem_of_mem_take h)
  · exact hb x (List.mem_of_mem_drop h)

theorem length_checksumInput {p : List Nat} (hlen : p.length = 4096) :
    (checksumInput p).length = 4092 := by
  simp [checksumInput, hlen]

theorem length_update_checksum {p : List Nat} (hlen : p.length = 4096) :
    (update_checksum p).length = 4096 := by
  rw [update_checksum, length_writeBytes]
  · exact hlen
  · rw [length_le32Bytes]; omega

theorem allBytes_update_checksum {p : List Nat} (hb : allBytes p) :
    allBytes (update_checksum p) := by
  intro x hx
  rcases List.mem_append.mp hx with h | h
  · rcases List.mem_append.mp h with h' | h'
    · exact hb x (List.mem_of_mem_take h')
    · exact allBytes_le32Bytes _ x h'
  · exact hb x (List.mem_of_mem_drop h)

theorem checksumInput_update_checksum {p : List Nat} (hlen : p.length = 4096) :
    checksumInput (update_checksum p) = checksumInput p := by
  unfold checksumInput update_checksum
  rw [take_writeBytes _ _ _ _ (by omega) (by omega)]
  rw [drop_writeBytes _ _ _ _ (by rw [length_le32Bytes]) (by omega)]

theorem storedChecksum_update_checksum {p : List Nat} (hlen : p.length = 4096)
    (hb : allBytes p) :
    storedChecksum (update_checksum p) = crc32 (checksumInput p) := by
  unfold storedChecksum update_checksum
  have h4 : (4 : Nat) = (le32Bytes (crc32 (checksumInput p))).length := rfl
  rw [h4, readBytes_writeBytes _ _ _ (by rw [length_le32Bytes]; omega)]
  exact decodeLE32_le32Bytes (crc32_lt (allBytes_checksumInput hb))

/-- A single changed byte outside the checksum field changes the
checksum input by exactly one byte, so the CRC changes. -/
theorem crc32_ne_set {l : List Nat} {k b : Nat} (hk : k < l.length)
    (hl : allBytes l) (hb : b < 256) (hne : b ≠ l[k]) :
    crc32 (l.set k b) ≠ crc32 l := by
  obtain ⟨l₁, l₂, hdec, _, hset⟩ := @List.exists_of_set _ _ b _ hk
  have hl₁ : allBytes l₁ := fun x hx => hl x (by rw [hdec]; simp [hx])
  have hl₂ : allBytes l₂ := fun x hx => hl x (by rw [hdec]; simp [hx])
  have hmain := crc32_ne_single_diff l₁ l₂ hl₁ hl₂ hb
    (hl _ (List.getElem_mem hk)) hne
  rw [← hset, ← hdec] at hmain
  exact hmain

theorem checksumInput_set_lt {q : List Nat} {i b : Nat} (hq : 48 ≤ q.length)
    (hi : i < 48) :
    checksumInput (q.set i b) = (checksumInput q).set i b := by
  unfold checksumInput
  rw [List.set_take, List.drop_set_of_lt _ _ (by omega : i < 52)]
  rw [List.set_append_left _ _ (by simp; omega)]

theorem checksumInput_set_ge {q : List Nat} {i b : Nat} (hq : q.length = 4096)
    (hi : 52 ≤ i) :
    checksumInput (q.set i b) = (checksumInput q).set (i - 4) b := by
  unfold checksumInput
  rw [List.set_take, List.set_eq_of_length_le (by simp; omega)]
  rw [List.drop_set, if_neg (by omega)]
  rw [List.set_append_right _ _ (by simp; omega)]
  have harith : i - 4 - (q.take 48).length = i - 52 := by simp; omega
  rw [harith]

theorem getD_checksumInput_lt {q : List Nat} {i : Nat} (hi : i < 48) :
    (checksumInput q).getD i 0 = q.getD i 0 := by
  simp only [checksumInput, List.getD_eq_getElem?_getD]
  by_cases hq : i < q.length
  · rw [List.getElem?_append_left (by simp; omega), List.getElem?_take_of_lt hi]
  · rw [List.getElem?_eq_none (by simp; omega), List.getElem?_eq_none (by omega)]

theorem getD_checksumInput_ge {q : List Nat} {i : Nat} (hq : q.length = 4096)
    (h52 : 52 ≤ i) (hi : i < 4096) :
    (checksumInput q).getD (i - 4) 0 = q.getD i 0 := by
  simp only [checksumInput, List.getD_eq_getElem?_getD]
  rw [List.getElem?_append_right (by simp; omega)]
  rw [List.getElem?_drop]
  have harith : 52 + (i - 4 - (q.take 48).length) = i := by simp; omega
  rw [harith]

theorem readBytes_set_inside {q : List Nat} {i b : Nat} (hi : 48 ≤ i) :
    readBytes (q.set i b) 48 4 = (readBytes q 48 4).set (i - 48) b := by
  unfold readBytes
  rw [List.drop_set, if_neg (by omega), List.set_take]

theorem storedChecksum_set_outside {q : List Nat} {i b : Nat}
    (hout : i < 48 ∨ 52 ≤ i) :
    storedChecksum (q.set i b) = storedChecksum q := by
  unfold storedChecksum readBytes
  rcases hout with h | h
  · rw [List.drop_set_of_lt _ _ (by omega : i < 48)]
  · rw [List.drop_set, if_neg (by omega), List.set_take,
      List.set_eq_of_length_le (by simp; omega)]

theorem decodeLE32_set_ne {v k b : Nat} (hv : v < 2 ^ 32) (hk : k < 4)
    (hb : b < 256) (hne : b ≠ (le32Bytes v).getD k 0) :
    decodeLE32 ((le32Bytes v).set k b) ≠ v := by
  interval_cases k <;>
    simp only [le32Bytes, List.set, decodeLE32, List.getD_cons_zero,
      List.getD_cons_succ] at hne ⊢ <;>
    omega

/-- After `update_checksum`, the stored and recomputed checksums agree. -/
theorem verify_checksum_update_checksum {p : List Nat}
    (hlen : p.length = 4096) (hb : allBytes p) :
    verify_checksum (update_checksum p) = true := by
  unfold verify_checksum
  rw [checksumInput_update_checksum hlen, storedChecksum_update_checksum hlen hb]
  simp

theorem readBytes_update_checksum {p : List Nat} (hlen : p.length = 4096) :
    readBytes (update_checksum p) 48 4 = le32Bytes (crc32 (checksumInput p)) := by
  unfold update_checksum
  have h4 : (4 : Nat) = (le32Bytes (crc32 (checksumInput p))).length := rfl
  rw [h4, readBytes_writeBytes _ _ _ (by rw [length_le32Bytes]; omega)]

theorem getD_readBytes {q : List Nat} {off len m : Nat} (hm : m < len) :
    (readBytes q off len).getD m 0 = q.getD (off + m) 0 := by
  simp only [readBytes, List.getD_eq_getElem?_getD]
  rw [List.getElem?_take_of_lt hm, List.getElem?_drop]

/-- `C1`: for every well-formed page, verification succeeds right after
`update_checksum`, and flipping any single bit of the page — whether
inside the stored checksum field (bytes 48..51) or anywhere else —
makes `verify_checksum` return `false`. -/
theorem update_checksum_verifies_and_any_bitflip_fails (p : List Nat)
    (hlen : p.length = 4096) (hb : allBytes p) :
    verify_checksum (update_checksum p) = true ∧
    ∀ i j, i < 4096 → j < 8 →
      verify_checksum (flipBit (update_checksum p) i j) = false := by
  refine ⟨verify_checksum_update_checksum hlen hb, ?_⟩
  intro i j hi hj
  set q := update_checksum p with hqdef
  have hqlen : q.length = 4096 := length_update_checksum hlen
  have hqb : allBytes q := allBytes_update_checksum hb
  have hiq : i < q.length := by omega
  have hbq : q.getD i 0 = q[i] := getD_eq_getElem0 hiq
  have hbyte : q[i] < 256 := hqb _ (List.getElem_mem hiq)
  have h2j : 2 ^ j < 256 := by
    have : 2 ^ j ≤ 2 ^ 7 := Nat.pow_le_pow_right (by omega) (by omega)
    have h7 : (2 : Nat) ^ 7 = 128 := by norm_num
    omega
  have h256 : (256 : Nat) = 2 ^ 8 := by norm_num
  have hb' : q[i] ^^^ 2 ^ j < 256 := by
    rw [h256] at hbyte h2j ⊢
    exact Nat.xor_lt_two_pow hbyte h2j
  have hne : q[i] ^^^ 2 ^ j ≠ q[i] := by
    intro h
    have h0 : q[i] ^^^ 2 ^ j = q[i] ^^^ 0 := by rw [Nat.xor_zero]; exact h
    have hz := xor_left_cancel h0
    have hpos : 0 < 2 ^ j := by positivity
    omega
  have hinput : checksumInput q = checksumInput p :=
    checksumInput_update_checksum hlen
  have hstored : storedChecksum q = crc32 (checksumInput p) :=
    storedChecksum_update_checksum hlen hb
  have hflip : flipBit q i j = q.set i (q[i] ^^^ 2 ^ j) := by
    rw [flipBit, hbq]
  rw [hflip]
  unfold verify_checksum
  rw [beq_eq_false_iff_ne]
  by_cases hcase : 48 ≤ i ∧ i < 52
  · obtain ⟨h48, h52⟩ := hcase
    have hinp2 : checksumInput (q.set i (q[i] ^^^ 2 ^ j)) = checksumInput q := by
      unfold checksumInput
      rw [List.set_take, List.set_eq_of_length_le (by simp; omega)]
      rw [List.drop_set_of_lt _ _ (by omega : i < 52)]
    have hread : readBytes q 48 4 = le32Bytes (crc32 (checksumInput p)) :=
      readBytes_update_checksum hlen
    have hsets : storedChecksum (q.set i (q[i] ^^^ 2 ^ j)) =
        decodeLE32 ((le32Bytes (crc32 (checksumInput p))).set (i - 48)
          (q[i] ^^^ 2 ^ j)) := by
      unfold storedChecksum
      rw [readBytes_set_inside h48, hread]
    have hgv : (le32Bytes (crc32 (checksumInput p))).getD (i - 48) 0 =
        q.getD i 0 := by
      rw [← hread, getD_readBytes (by omega)]
      have : 48 + (i - 48) = i := by omega
      rw [this]
    have hdec : decodeLE32 ((le32Bytes (crc32 (checksumInput p))).set (i - 48)
        (q[i] ^^^ 2 ^ j)) ≠ crc32 (checksumInput p) := by
      apply decodeLE32_set_ne (crc32_lt (allBytes_checksumInput hb))
        (by omega) hb'
      rw [hgv, hbq]
      exact hne
    rw [hinp2, hinput, hsets]
    exact fun h => hdec h.symm
  · have hout : i < 48 ∨ 52 ≤ i := by omega
    have hstored2 : storedChecksum (q.set i (q[i] ^^^ 2 ^ j)) =
        storedChecksum q := storedChecksum_set_outside hout
    have hlenci : (checksumInput q).length = 4092 := length_checksumInput hqlen
    have hciq : allBytes (checksumInput q) := allBytes_checksumInput hqb
    rw [hstored2, hstored, ← hinput]
    rcases hout with hlt | hge
    · rw [checksumInput_set_lt (by omega) hlt]
      apply crc32_ne_set (by omega) hciq hb'
      have hgetci : (checksumInput q).getD i 0 = q.getD i 0 :=
        getD_checksumInput_lt hlt
      rw [getD_eq_getElem0 (l := checksumInput q) (by omega), hbq] at hgetci
      rw [hgetci]
      exact hne
    · rw [checksumInput_set_ge hqlen hge]
      apply crc32_ne_set (by omega) hciq hb'
      have hgetci : (checksumInput q).getD (i - 4) 0 = q.getD i 0 :=
        getD_checksumInput_ge hqlen hge (by omega)
      rw [getD_eq_getElem0 (l := checksumInput q) (by omega), hbq] at hgetci
      rw [hgetci]
      exact hne

/-- `C8`: `verify_checksum` mutates nothing — run as a state
transformer it returns the page unchanged — and it returns `false`
exactly when the stored checksum differs from the recomputed one. -/
theorem verify_checksum_pure_and_false_iff_mismatch (p : List Nat) :
    (verify_checksum_run p).2 = p ∧
    ((verify_checksum_run p).1 = false ↔
      storedChecksum p ≠ crc32 (checksumInput p)) := by
  refine ⟨rfl, ?_⟩
  simp only [verify_checksum_run, verify_checksum]
  rw [beq_eq_false_iff_ne]
  exact ⟨fun h => fun h2 => h h2.symm, fun h => fun h2 => h h2.symm⟩

/-! ## C++ layout of `PageHeader` (`storage_engine.hpp:119-154`)

`struct alignas(64) PageHeader` declares, in order: `page_type`
(`uint32_t` enum), `free_space_offset` (`uint32_t`), `free_space_size`
(`uint32_t`), `record_count` (`uint16_t`), `flags` (`uint16_t`),
`page_id` / `next_page` / `prev_page` / `lsn` (`uint64_t` each),
`checksum` (`uint32_t`), `reserved` (`uint8_t[12]`).  The Itanium C++
layout places each field at its size-aligned offset and pads the struct
to its (here `alignas(64)`-forced) alignment. -/

def alignUp (n a : Nat) : Nat := (n + a - 1) / a * a

/-- `(size, alignment)` of each `PageHeader` field in declaration order. -/
def pageHeaderFields : List (Nat × Nat) :=
  [(4, 4), (4, 4), (4, 4), (2, 2), (2, 2),
   (8, 8), (8, 8), (8, 8), (8, 8), (4, 4), (12, 1)]

/-- Offsets assigned to the fields by the C++ layout rules. -/
def layoutOffsets : List (Nat × Nat) → Nat → List Nat
  | [], _ => []
  | (sz, al) :: fs, cur =>
    alignUp cur al :: layoutOffsets fs (alignUp cur al + sz)

/-- Offset one past the last field. -/
def structEnd : List (Nat × Nat) → Nat → Nat
  | [], cur => cur
  | (sz, al) :: fs, cur => structEnd fs (alignUp cur al + sz)

/-- `alignas(64)` on `PageHeader`. -/
def pageHeaderAlign : Nat := 64

/-- `sizeof(PageHeader)` under the C++ layout rules. -/
def sizeofPageHeader : Nat :=
  alignUp (structEnd pageHeaderFields 0) pageHeaderAlign

/-! ## In-memory page handle (`storage_engine.hpp:159-302`)

`Page` carries `m_dirty` (initialised `false`), `m_pin_count`
(`std::atomic<int32_t>`, initialised `0`), and last-accessed /
last-modified timestamps.  Timestamps are modelled as abstract ticks;
`int32_t` arithmetic wraps at `2^31`. -/

/-- Wrap an integer into the `int32_t` range, two's complement. -/
def int32wrap (x : Int) : Int := (x + 2 ^ 31) % 2 ^ 32 - 2 ^ 31

structure PageState where
  page_id : Nat
  dirty : Bool
  pin_count : Int
  last_accessed : Nat
  last_modified : Nat
deriving DecidableEq

/-- `Page::Page(PageId)` with the member initialisers
`m_dirty{false}`, `m_pin_count{0}` (`storage_engine.hpp:295-296`). -/
def freshPage (id : Nat) : PageState :=
  { page_id := id, dirty := false, pin_count := 0,
    last_accessed := 0, last_modified := 0 }

/-- `Page::is_dirty` (`storage_engine.hpp:215-217`). -/
def is_dirty (p : PageState) : Bool := p.dirty

/-- `Page::mark_dirty` (`storage_engine.hpp:222-225`): sets the flag
and stamps `m_last_modified` with the current time `t`. -/
def mark_dirty (t : Nat) (p : PageState) : PageState :=
  { p with dirty := true, last_modified := t }

/-- `Page::mark_clean` (`storage_engine.hpp:230-232`). -/
def mark_clean (p : PageState) : PageState := { p with dirty := false }

/-- `Page::pin` (`storage_engine.hpp:237`): `fetch_add(1)`. -/
def pin (p : PageState) : PageState :=
  { p with pin_count := int32wrap (p.pin_count + 1) }

/-- `Page::unpin` (`storage_engine.hpp:242-245`): `fetch_sub(1)`
followed by `assert(count > 0)` on the value read before the
decrement.  In a debug build a failed assert is fatal (modelled as
`none`); with `NDEBUG` the assert is compiled out and the function
always returns (`some`), whatever the previous pin count. -/
def unpin (debugBuild : Bool) (p : PageState) : Option PageState :=
  let old := p.pin_count
  let p' : PageState := { p with pin_count := int32wrap (old - 1) }
  if debugBuild ∧ ¬(0 < old) then none else some p'

/-! ## `StorageError` (`storage_engine.hpp:55-68`) and the spec's §7
error taxonomy -/

inductive StorageError where
  | OK
  | PAGE_NOT_FOUND
  | RECORD_NOT_FOUND
  | BUFFER_FULL
  | IO_ERROR
  | CORRUPTION
  | OUT_OF_SPACE
  | INVALID_OPERATION
  | TRANSACTION_ABORTED
  | DEADLOCK_DETECTED
  | CONSTRAINT_VIOLATION
  | INVALID_ARGUMENT
deriving DecidableEq

/-- `to_string(StorageError)` (`storage_engine.hpp:71-101`). -/
def StorageError.name : StorageError → String
  | .OK => "OK"
  | .PAGE_NOT_FOUND => "PAGE_NOT_FOUND"
  | .RECORD_NOT_FOUND => "RECORD_NOT_FOUND"
  | .BUFFER_FULL => "BUFFER_FULL"
  | .IO_ERROR => "IO_ERROR"
  | .CORRUPTION => "CORRUPTION"
  | .OUT_OF_SPACE => "OUT_OF_SPACE"
  | .INVALID_OPERATION => "INVALID_OPERATION"
  | .TRANSACTION_ABORTED => "TRANSACTION_ABORTED"
  | .DEADLOCK_DETECTED => "DEADLOCK_DETECTED"
  | .CONSTRAINT_VIOLATION => "CONSTRAINT_VIOLATION"
  | .INVALID_ARGUMENT => "INVALID_ARGUMENT"

/-- Every value of the `StorageError` enum. -/
def storageErrorList : List StorageError :=
  [.OK, .PAGE_NOT_FOUND, .RECORD_NOT_FOUND, .BUFFER_FULL, .IO_ERROR,
   .CORRUPTION, .OUT_OF_SPACE, .INVALID_OPERATION, .TRANSACTION_ABORTED,
   .DEADLOCK_DETECTED, .CONSTRAINT_VIOLATION, .INVALID_ARGUMENT]

/-- The error kinds named by §7 of the spec. -/
inductive SpecErrorKind where
  | PAGE_NOT_FOUND
  | RECORD_NOT_FOUND
  | BUFFER_FULL
  | IO_ERROR
  | CORRUPTION
  | OUT_OF_SPACE
  | INVALID_OPERATION
  | TRANSACTION_ABORTED
  | DEADLOCK_DETECTED
  | LOCK_TIMEOUT
  | CONSTRAINT_VIOLATION
  | INVALID_ARGUMENT
deriving DecidableEq

def SpecErrorKind.name : SpecErrorKind → String
  | .PAGE_NOT_FOUND => "PAGE_NOT_FOUND"
  | .RECORD_NOT_FOUND => "RECORD_NOT_FOUND"
  | .BUFFER_FULL => "BUFFER_FULL"
  | .IO_ERROR => "IO_ERROR"
  | .CORRUPTION => "CORRUPTION"
  | .OUT_OF_SPACE => "OUT_OF_SPACE"
  | .INVALID_OPERATION => "INVALID_OPERATION"
  | .TRANSACTION_ABORTED => "TRANSACTION_ABORTED"
  | .DEADLOCK_DETECTED => "DEADLOCK_DETECTED"
  | .LOCK_TIMEOUT => "LOCK_TIMEOUT"
  | .CONSTRAINT_VIOLATION => "CONSTRAINT_VIOLATION"
  | .INVALID_ARGUMENT => "INVALID_ARGUMENT"

/-- A spec error kind is representable when some `StorageError` value
carries its name. -/
def representable (k : SpecErrorKind) : Bool :=
  storageErrorList.any fun e => e.name == k.name

/-! ## `StorageStatistics` (`storage_engine.hpp:331-349`) -/

structure StorageStatistics where
  total_pages : Nat
  free_pages : Nat
  buffer_hits : Nat
  buffer_misses : Nat
  disk_reads : Nat
  disk_writes : Nat
  records_inserted : Nat
  records_updated : Nat
  records_deleted : Nat
  cache_hit_ratio : ℚ

/-- `StorageStatistics::update_cache_hit_ratio`
(`storage_engine.hpp:344-348`): `total = buffer_hits + buffer_misses`
in `uint64_t` arithmetic (wraps modulo `2^64`), then
`cache_hit_ratio = total > 0 ? double(buffer_hits) / total : 0.0`.
The `double` division is modelled as exact rational division. -/
def update_cache_hit_ratio (s : StorageStatistics) : StorageStatistics :=
  let total : Nat := (s.buffer_hits + s.buffer_misses) % 2 ^ 64
  { s with cache_hit_ratio :=
      if 0 < total then (s.buffer_hits : ℚ) / (total : ℚ) else 0 }

/-- Statistics record with every counter zero. -/
def zeroStats : StorageStatistics :=
  { total_pages := 0, free_pages := 0, buffer_hits := 0, buffer_misses := 0,
    disk_reads := 0, disk_writes := 0, records_inserted := 0,
    records_updated := 0, records_deleted := 0, cache_hit_ratio := 0 }

/-- Counters at the `uint64_t` limit: the sum wraps to `1`. -/
def statsOverflow : StorageStatistics :=
  { zeroStats with buffer_hits := 2 ^ 64 - 1, buffer_misses := 2 }

/-- Counters at 3 hits and 1 miss. -/
def statsThreeOne : StorageStatistics :=
  { zeroStats with buffer_hits := 3, buffer_misses := 1 }

/-- The all-zero 4096-byte page. -/
def zeroPage : List Nat := List.replicate 4096 0

/-- `C1` witness at the all-zero page, byte 0, bit 0. -/
theorem checksum_bitflip_witness :
    verify_checksum (flipBit (update_checksum zeroPage) 0 0) = false :=
  (update_checksum_verifies_and_any_bitflip_fails zeroPage
    (List.length_replicate 4096 0)
    (fun x hx => by rw [List.eq_of_mem_replicate hx]; decide)).2
    0 0 (by decide) (by decide)

/-- `C5`: `sizeof(PageHeader)` is exactly 64 under the C++ layout
rules, the header and payload constants are 64 and 4032 and sum to the
4096-byte `PAGE_SIZE`, the fields sit at offsets
0,4,8,12,14,16,24,32,40,48,52 (so the struct is exactly the declared
fields plus tail padding), and the checksum field is at offset 48. -/
theorem pageHeader_layout_sizes :
    sizeofPageHeader = 64 ∧
    PAGE_HEADER_SIZE = 64 ∧
    PAGE_DATA_SIZE = 4032 ∧
    PAGE_HEADER_SIZE + PAGE_DATA_SIZE = PAGE_SIZE ∧
    PAGE_SIZE = 4096 ∧
    layoutOffsets pageHeaderFields 0 = [0, 4, 8, 12, 14, 16, 24, 32, 40, 48, 52] ∧
    (layoutOffsets pageHeaderFields 0).getD 9 0 = checksumOff := by
  decide

/-- `C9`: `mark_dirty` makes `is_dirty` true, `mark_clean` makes it
false, both are idempotent, and a freshly constructed page is clean
with pin count zero. -/
theorem dirty_flag_and_fresh_page (p : PageState) (t id : Nat) :
    is_dirty (mark_dirty t p) = true ∧
    is_dirty (mark_clean p) = false ∧
    mark_dirty t (mark_dirty t p) = mark_dirty t p ∧
    mark_clean (mark_clean p) = mark_clean p ∧
    is_dirty (freshPage id) = false ∧
    (freshPage id).pin_count = 0 :=
  ⟨rfl, rfl, rfl, rfl, rfl, rfl⟩

/-- `C2` counterexample: in a release build (`NDEBUG`), `unpin()` on a
page with pin count zero does not return an error — it proceeds and
leaves the pin count at `-1`. -/
theorem unpin_zero_pin_release_proceeds_silently :
    unpin false (freshPage 1) =
      some { freshPage 1 with pin_count := -1 } := by
  decide

/-- `C2` amended: unpinning a zero-pin page is fatal in debug builds,
while in release builds the assert is compiled out and the decrement
proceeds silently to `-1`; for pin count `n > 0` (within `int32_t`
range) `unpin` decreases it to `n - 1`. -/
theorem unpin_assert_and_decrement (p : PageState) :
    (p.pin_count = 0 →
      unpin true p = none ∧
      unpin false p = some { p with pin_count := -1 }) ∧
    (∀ d : Bool, 0 < p.pin_count → p.pin_count < 2 ^ 31 →
      unpin d p = some { p with pin_count := p.pin_count - 1 }) := by
  constructor
  · intro h0
    have hw : int32wrap (p.pin_count - 1) = -1 := by rw [h0]; decide
    refine ⟨?_, ?_⟩
    · simp only [unpin]
      rw [if_pos ⟨by trivial, by omega⟩]
    · simp only [unpin]
      rw [if_neg (by simp), hw]
  · intro d hpos hlt
    have hw : int32wrap (p.pin_count - 1) = p.pin_count - 1 := by
      unfold int32wrap; omega
    simp only [unpin]
    rw [if_neg fun h => h.2 hpos, hw]

/-- `C2` witness: unpinning after one pin decrements 1 to 0, in a
debug build. -/
theorem unpin_assert_witness :
    unpin true (pin (freshPage 2)) =
      some { pin (freshPage 2) with
              pin_count := (pin (freshPage 2)).pin_count - 1 } :=
  (unpin_assert_and_decrement (pin (freshPage 2))).2 true
    (by decide) (by decide)

/-- `C3` counterexample: the spec's `LOCK_TIMEOUT` error kind has no
corresponding `StorageError` value. -/
theorem lock_timeout_not_representable :
    representable SpecErrorKind.LOCK_TIMEOUT = false := by
  decide

/-- `C3` amended: every kind of the §7 error taxonomy except
`LOCK_TIMEOUT` is representable as a `StorageError` value. -/
theorem taxonomy_without_lock_timeout_representable (k : SpecErrorKind)
    (hk : k ≠ SpecErrorKind.LOCK_TIMEOUT) : representable k = true := by
  cases k <;> first
    | rfl
    | exact absurd rfl hk

/-- `C3` witness at the `CORRUPTION` kind. -/
theorem taxonomy_representable_witness :
    representable SpecErrorKind.CORRUPTION = true :=
  taxonomy_without_lock_timeout_representable SpecErrorKind.CORRUPTION
    (by decide)

/-- `C7` counterexample: with `buffer_hits = 2^64 - 1` and
`buffer_misses = 2` the `uint64_t` sum wraps to `1`, and the updated
ratio is `2^64 - 1 > 1`, outside the claimed `[0, 1]` range. -/
theorem cache_hit_ratio_exceeds_one_on_overflow :
    1 < (update_cache_hit_ratio statsOverflow).cache_hit_ratio := by
  norm_num [update_cache_hit_ratio, statsOverflow, zeroStats]

/-- `C7` amended: as long as `buffer_hits + buffer_misses` does not
overflow `uint64_t`, the updated ratio is 0 when no access was
counted, equals `buffer_hits / (buffer_hits + buffer_misses)`
otherwise, and always lies in `[0, 1]`. -/
theorem cache_hit_ratio_formula_and_bounds (s : StorageStatistics)
    (hno : s.buffer_hits + s.buffer_misses < 2 ^ 64) :
    (s.buffer_hits + s.buffer_misses = 0 →
      (update_cache_hit_ratio s).cache_hit_ratio = 0) ∧
    (0 < s.buffer_hits + s.buffer_misses →
      (update_cache_hit_ratio s).cache_hit_ratio =
        (s.buffer_hits : ℚ) / ((s.buffer_hits : ℚ) + (s.buffer_misses : ℚ))) ∧
    0 ≤ (update_cache_hit_ratio s).cache_hit_ratio ∧
    (update_cache_hit_ratio s).cache_hit_ratio ≤ 1 := by
  have hmod : (s.buffer_hits + s.buffer_misses) % 2 ^ 64 =
      s.buffer_hits + s.buffer_misses := Nat.mod_eq_of_lt hno
  simp only [update_cache_hit_ratio, hmod]
  by_cases h0 : s.buffer_hits + s.buffer_misses = 0
  · rw [if_neg (by omega)]
    refine ⟨fun _ => rfl, fun h => absurd h0 (by omega), by norm_num, by norm_num⟩
  · have hpos : 0 < s.buffer_hits + s.buffer_misses := by omega
    rw [if_pos hpos]
    have hQ : (0 : ℚ) < (s.buffer_hits : ℚ) + (s.buffer_misses : ℚ) := by
      have h' : ((0 : Nat) : ℚ) < ((s.buffer_hits + s.buffer_misses : Nat) : ℚ) := by
        exact_mod_cast hpos
      push_cast at h'
      exact h'
    push_cast
    refine ⟨fun h => absurd h h0, fun _ => rfl, by positivity, ?_⟩
    rw [div_le_one hQ]
    exact le_add_of_nonneg_right (by positivity)

/-- `C7` witness at 3 hits and 1 miss: ratio `3/4`. -/
theorem cache_hit_ratio_witness :
    (update_cache_hit_ratio statsThreeOne).cache_hit_ratio =
      (statsThreeOne.buffer_hits : ℚ) /
        ((statsThreeOne.buffer_hits : ℚ) + (statsThreeOne.buffer_misses : ℚ)) :=
  (cache_hit_ratio_formula_and_bounds statsThreeOne (by decide)).2.1
    (by decide)

/-! ## Slotted pages and the record facade

Modelled from the spec: `StorageEngine::insert_record` / `get_record`
(`storage_engine.hpp:443-454`) are implemented behind an opaque
`Impl` pointer whose code is not in the sources.  §4.1 of the spec:
insertion computes required bytes (slot entry + payload), fails with
`OUT_OF_SPACE` if `free_space_size` is insufficient, otherwise appends
the payload growing inward from `free_space_offset`, appends a slot
directory entry, decrements `free_space_size` and increments
`record_count`; lookup searches the slot directory by `RecordId`,
tombstoned slots giving `RECORD_NOT_FOUND`.  RecordIds are minted from
a per-table counter starting at 1 (`config::INVALID_RECORD_ID = 0`),
and a slot directory entry takes 16 bytes (8-byte id, 4-byte offset,
4-byte length/tombstone word). -/

def INVALID_RECORD_ID : Nat := 0
def MAX_RECORD_SIZE : Nat := PAGE_SIZE / 2
def SLOT_ENTRY_SIZE : Nat := 16

structure Slot where
  rid : Nat
  off : Nat
  len : Nat
  tombstone : Bool
deriving DecidableEq

structure SlottedPage where
  free_space_offset : Nat
  free_space_size : Nat
  record_count : Nat
  slots : List Slot
  payload : List Nat
deriving DecidableEq

def emptySlottedPage : SlottedPage :=
  { free_space_offset := PAGE_DATA_SIZE, free_space_size := PAGE_DATA_SIZE,
    record_count := 0, slots := [],
    payload := List.replicate PAGE_DATA_SIZE 0 }

/-- Record insertion within a page, per §4.1. -/
def page_insert (pg : SlottedPage) (rid : Nat) (data : List Nat) :
    Option SlottedPage :=
  let required := SLOT_ENTRY_SIZE + data.length
  if pg.free_space_size < required then none
  else
    let off := pg.free_space_offset - data.length
    some { free_space_offset := off,
           free_space_size := pg.free_space_size - required,
           record_count := pg.record_count + 1,
           slots := pg.slots ++ [⟨rid, off, data.length, false⟩],
           payload := writeBytes pg.payload off data }

/-- Record lookup within a page, per §4.1: search the slot directory
by `RecordId`, skipping tombstoned slots. -/
def page_lookup (pg : SlottedPage) (rid : Nat) : Option (List Nat) :=
  match pg.slots.find? fun s => s.rid == rid && !s.tombstone with
  | none => none
  | some s => some (readBytes pg.payload s.off s.len)

structure TableState where
  next_rid : Nat
  page : SlottedPage
deriving DecidableEq

def freshTable : TableState := { next_rid := 1, page := emptySlottedPage }

structure EngineState where
  tables : List (String × TableState)
deriving DecidableEq

/-- Engine holding exactly one freshly created table. -/
def freshEngine (name : String) : EngineState := ⟨[(name, freshTable)]⟩

def findTable (e : EngineState) (name : String) : Option TableState :=
  (e.tables.find? fun p => p.1 == name).map Prod.snd

def setTable (e : EngineState) (name : String) (t : TableState) : EngineState :=
  ⟨e.tables.map fun p => if p.1 == name then (p.1, t) else p⟩

/-- Modelled from the spec: `StorageEngine::insert_record`. -/
def insert_record (e : EngineState) (name : String) (data : List Nat) :
    Except StorageError (Nat × EngineState) :=
  match findTable e name with
  | none => .error .INVALID_ARGUMENT
  | some t =>
    match page_insert t.page t.next_rid data with
    | none => .error .OUT_OF_SPACE
    | some pg =>
      .ok (t.next_rid,
        setTable e name { next_rid := t.next_rid + 1, page := pg })

/-- Modelled from the spec: `StorageEngine::get_record`. -/
def get_record (e : EngineState) (name : String) (rid : Nat) :
    Except StorageError (List Nat) :=
  match findTable e name with
  | none => .error .INVALID_ARGUMENT
  | some t =>
    match page_lookup t.page rid with
    | none => .error .RECORD_NOT_FOUND
    | some d => .ok d

/-- The page after inserting `d` as the first record of a fresh table. -/
def insertedPage (d : List Nat) : SlottedPage :=
  { free_space_offset := 4032 - d.length,
    free_space_size := 4032 - (16 + d.length),
    record_count := 1,
    slots := [⟨1, 4032 - d.length, d.length, false⟩],
    payload := writeBytes (List.replicate 4032 0) (4032 - d.length) d }

/-- The engine after inserting `d` into the fresh table `name`. -/
def insertedEngine (name : String) (d : List Nat) : EngineState :=
  setTable (freshEngine name) name { next_rid := 2, page := insertedPage d }

theorem findTable_freshEngine (name : String) :
    findTable (freshEngine name) name = some freshTable := by
  simp [findTable, freshEngine, List.find?]

theorem setTable_freshEngine (name : String) (t : TableState) :
    setTable (freshEngine name) name t = ⟨[(name, t)]⟩ := by
  simp [setTable, freshEngine]

theorem findTable_singleton (name : String) (t : TableState) :
    findTable ⟨[(name, t)]⟩ name = some t := by
  simp [findTable, List.find?]

theorem page_lookup_singleton (fso fss rc rid off len : Nat)
    (payload : List Nat) :
    page_lookup ⟨fso, fss, rc, [⟨rid, off, len, false⟩], payload⟩ rid =
      some (readBytes payload off len) := by
  simp [page_lookup, List.find?]

theorem page_insert_emptySlottedPage (rid : Nat) (d : List Nat)
    (hd : d.length ≤ 4016) :
    page_insert emptySlottedPage rid d = some
      { free_space_offset := 4032 - d.length,
        free_space_size := 4032 - (16 + d.length),
        record_count := 1,
        slots := [⟨rid, 4032 - d.length, d.length, false⟩],
        payload := writeBytes (List.replicate 4032 0) (4032 - d.length) d } := by
  unfold page_insert emptySlottedPage
  rw [if_neg (by
    simp only [SLOT_ENTRY_SIZE, PAGE_DATA_SIZE, PAGE_SIZE, PAGE_HEADER_SIZE]
    omega)]
  rfl

/-- `C4`: inserting a 100-byte record into a freshly created table
returns `RecordId` 1 (≠ `INVALID_RECORD_ID`), and `get_record` with
that id returns the identical bytes. -/
theorem insert_then_get_roundtrip (name : String) (d : List Nat)
    (hlen : d.length = 100) :
    insert_record (freshEngine name) name d =
      Except.ok (1, insertedEngine name d) ∧
    (1 : Nat) ≠ INVALID_RECORD_ID ∧
    get_record (insertedEngine name d) name 1 = Except.ok d := by
  have hpi := page_insert_emptySlottedPage 1 d (by omega)
  refine ⟨?_, by decide, ?_⟩
  · simp only [insert_record, findTable_freshEngine, freshTable]
    rw [hpi]
    rfl
  · have hfind2 : findTable (insertedEngine name d) name =
        some { next_rid := 2, page := insertedPage d } := by
      unfold insertedEngine
      rw [setTable_freshEngine, findTable_singleton]
    simp only [get_record, hfind2]
    have hlook : page_lookup (insertedPage d) 1 =
        some (readBytes (writeBytes (List.replicate 4032 0)
          (4032 - d.length) d) (4032 - d.length) d.length) :=
      page_lookup_singleton (4032 - d.length) (4032 - (16 + d.length)) 1 1
        (4032 - d.length) d.length
        (writeBytes (List.replicate 4032 0) (4032 - d.length) d)
    rw [hlook]
    have hrb : readBytes (writeBytes (List.replicate 4032 0)
        (4032 - d.length) d) (4032 - d.length) d.length = d :=
      readBytes_writeBytes _ _ _
        (by rw [List.length_replicate]; omega)
    rw [hrb]

/-- `C4` witness at a concrete 100-byte record. -/
theorem insert_then_get_witness :
    get_record (insertedEngine "t" (List.replicate 100 7)) "t" 1 =
      Except.ok (List.replicate 100 7) :=
  (insert_then_get_roundtrip "t" (List.replicate 100 7)
    (List.length_replicate 100 7)).2.2

/-! ## `SystemConfig` (`core.hpp:374-394`, `core.cpp:72-210`)

The config file is modelled as a list of lines, each line a list of
byte values (so `' ' = 32`, `'\t' = 9`, `'#' = 35`, `'=' = 61`,
`'0' = 48`).  A missing or unopenable file is `none`.  `double`-free,
the loader is faithful to `SystemConfig::load`: skip empty and `#`
lines, split at the first `=`, trim both parts, dispatch on the key;
`std::stoull` failure (the `catch` path) yields `INVALID_ARGUMENT`,
and so does a parsed config that fails `validate()`. -/

def strBytes (s : String) : List Nat := s.toList.map Char.toNat

def MIN_BUFFER_POOL_SIZE : Nat := 10
def MAX_BUFFER_POOL_SIZE : Nat := 1000000

/-- `velox::error::ErrorCode` (`core.hpp:144-189`). -/
inductive ErrorCode where
  | SUCCESS
  | UNKNOWN_ERROR
  | INVALID_ARGUMENT
  | OUT_OF_MEMORY
  | NOT_IMPLEMENTED
  | INTERNAL_ERROR
  | STORAGE_ERROR
  | PAGE_NOT_FOUND
  | RECORD_NOT_FOUND
  | TABLE_NOT_FOUND
  | BUFFER_FULL
  | DISK_FULL
  | IO_ERROR
  | CORRUPTION
  | TRANSACTION_ERROR
  | TRANSACTION_ABORTED
  | DEADLOCK_DETECTED
  | LOCK_TIMEOUT
  | ISOLATION_VIOLATION
  | QUERY_ERROR
  | SYNTAX_ERROR
  | SEMANTIC_ERROR
  | TYPE_MISMATCH
  | CONSTRAINT_VIOLATION
  | NETWORK_ERROR
  | CONNECTION_FAILED
  | PROTOCOL_ERROR
  | TIMEOUT
  | INDEX_ERROR
  | INDEX_NOT_FOUND
  | DUPLICATE_KEY
  | KEY_NOT_FOUND
deriving DecidableEq

/-- `spdlog::level::level_enum`. -/
inductive LogLevel where
  | trace
  | debug
  | info
  | warn
  | err
  | critical
  | off
deriving DecidableEq

structure SystemConfig where
  buffer_pool_size : Nat
  max_connections : Nat
  worker_threads : Nat
  data_directory : List Nat
  log_directory : List Nat
  enable_wal : Bool
  enable_checksums : Bool
  enable_compression : Bool
  log_level : LogLevel
deriving DecidableEq

/-- The default-constructed `SystemConfig` (`core.hpp:374-383`);
`worker_threads` defaults to the machine's `hardware_concurrency`,
passed in as `hw`. -/
def defaultSystemConfig (hw : Nat) : SystemConfig :=
  { buffer_pool_size := 1000, max_connections := 1000, worker_threads := hw,
    data_directory := strBytes "./data", log_directory := strBytes "./logs",
    enable_wal := true, enable_checksums := true, enable_compression := false,
    log_level := .info }

/-- `SystemConfig::validate` (`core.cpp:72-77`). -/
def SystemConfig.validate (c : SystemConfig) : Bool :=
  decide (MIN_BUFFER_POOL_SIZE ≤ c.buffer_pool_size) &&
  decide (c.buffer_pool_size ≤ MAX_BUFFER_POOL_SIZE) &&
  decide (0 < c.max_connections) &&
  decide (0 < c.worker_threads) &&
  !c.data_directory.isEmpty &&
  !c.log_directory.isEmpty

def isSpaceTab (c : Nat) : Bool := c == 32 || c == 9

def isDigit (c : Nat) : Bool := Nat.ble 48 c && Nat.ble c 57

/-- `erase(0, find_first_not_of(" \t"))` then
`erase(find_last_not_of(" \t") + 1)`. -/
def trimLeft (l : List Nat) : List Nat := l.dropWhile isSpaceTab

def trimRight (l : List Nat) : List Nat :=
  (l.reverse.dropWhile isSpaceTab).reverse

def trim (l : List Nat) : List Nat := trimRight (trimLeft l)

/-- Split a line at its first `'='`; `none` when the line has none
(`line.find("=") == npos`). -/
def breakEq : List Nat → Option (List Nat × List Nat)
  | [] => none
  | c :: cs =>
    if c == 61 then some ([], cs)
    else match breakEq cs with
      | none => none
      | some (k, v) => some (c :: k, v)

/-- `std::stoull`: skip leading whitespace, read a nonempty digit
run; `none` models the `std::invalid_argument` throw. -/
def stoull (l : List Nat) : Option Nat :=
  let ds := (l.dropWhile isSpaceTab).takeWhile isDigit
  if ds.isEmpty then none
  else some (ds.foldl (fun a c => 10 * a + (c - 48)) 0)

def kwBufferPoolSize : List Nat := strBytes "buffer_pool_size"
def kwMaxConnections : List Nat := strBytes "max_connections"
def kwWorkerThreads : List Nat := strBytes "worker_threads"
def kwDataDirectory : List Nat := strBytes "data_directory"
def kwLogDirectory : List Nat := strBytes "log_directory"
def kwEnableWal : List Nat := strBytes "enable_wal"
def kwEnableChecksums : List Nat := strBytes "enable_checksums"
def kwEnableCompression : List Nat := strBytes "enable_compression"
def kwLogLevel : List Nat := strBytes "log_level"

def strTrue : List Nat := strBytes "true"
def strFalse : List Nat := strBytes "false"
def strOne : List Nat := strBytes "1"
def strTrace : List Nat := strBytes "trace"
def strDebug : List Nat := strBytes "debug"
def strInfo : List Nat := strBytes "info"
def strWarn : List Nat := strBytes "warn"
def strError : List Nat := strBytes "error"
def strCritical : List Nat := strBytes "critical"

/-- `value == "true" || value == "1"`. -/
def parseBool (v : List Nat) : Bool := v == strTrue || v == strOne

/-- The `log_level` dispatch of `SystemConfig::load`
(`core.cpp:128-141`); an unknown name leaves the level unchanged. -/
def parseLevel (v : List Nat) (dflt : LogLevel) : LogLevel :=
  if v == strTrace then .trace
  else if v == strDebug then .debug
  else if v == strInfo then .info
  else if v == strWarn then .warn
  else if v == strError then .err
  else if v == strCritical then .critical
  else dflt

/-- One iteration of the `getline` loop of `SystemConfig::load`
(`core.cpp:94-142`); `none` models an escaping `std::exception`. -/
def applyLine (c : SystemConfig) (line : List Nat) : Option SystemConfig :=
  if line.isEmpty || line.headD 0 == 35 then some c
  else match breakEq line with
    | none => some c
    | some (k, v) =>
      let key := trim k
      let value := trim v
      if key == kwBufferPoolSize then
        match stoull value with
        | none => none
        | some n => some { c with buffer_pool_size := n }
      else if key == kwMaxConnections then
        match stoull value with
        | none => none
        | some n => some { c with max_connections := n }
      else if key == kwWorkerThreads then
        match stoull value with
        | none => none
        | some n => some { c with worker_threads := n }
      else if key == kwDataDirectory then
        some { c with data_directory := value }
      else if key == kwLogDirectory then
        some { c with log_directory := value }
      else if key == kwEnableWal then
        some { c with enable_wal := parseBool value }
      else if key == kwEnableChecksums then
        some { c with enable_checksums := parseBool value }
      else if key == kwEnableCompression then
        some { c with enable_compression := parseBool value }
      else if key == kwLogLevel then
        some { c with log_level := parseLevel value c.log_level }
      else some c

def applyLines (c : SystemConfig) : List (List Nat) → Option SystemConfig
  | [] => some c
  | l :: ls =>
    match applyLine c l with
    | none => none
    | some c' => applyLines c' ls

/-- `SystemConfig::load` (`core.cpp:79-152`).  `none` stands for a
file that does not exist or cannot be opened. -/
def SystemConfig.load (file : Option (List (List Nat))) (hw : Nat) :
    Except ErrorCode SystemConfig :=
  match file with
  | none => .error .IO_ERROR
  | some lines =>
    match applyLines (defaultSystemConfig hw) lines with
    | none => .error .INVALID_ARGUMENT
    | some c => if c.validate then .ok c else .error .INVALID_ARGUMENT

/-- Decimal printing by `operator<<`. -/
def natToChars (n : Nat) : List Nat :=
  if n = 0 then [48] else (Nat.digits 10 n).reverse.map fun d => 48 + d

def boolChars (b : Bool) : List Nat := if b then strTrue else strFalse

/-- The `switch (log_level)` of `SystemConfig::save`
(`core.cpp:180-202`); the `default` branch writes `"info"`. -/
def levelChars : LogLevel → List Nat
  | .trace => strTrace
  | .debug => strDebug
  | .info => strInfo
  | .warn => strWarn
  | .err => strError
  | .critical => strCritical
  | .off => strInfo

/-- The lines `SystemConfig::save` writes (`core.cpp:165-203`):
two comment lines, a blank line, then one `key=value` line per field. -/
def savedLines (c : SystemConfig) : List (List Nat) :=
  [strBytes "# VeloxDB Configuration File",
   strBytes "# Generated automatically",
   [],
   kwBufferPoolSize ++ 61 :: natToChars c.buffer_pool_size,
   kwMaxConnections ++ 61 :: natToChars c.max_connections,
   kwWorkerThreads ++ 61 :: natToChars c.worker_threads,
   kwDataDirectory ++ 61 :: c.data_directory,
   kwLogDirectory ++ 61 :: c.log_directory,
   kwEnableWal ++ 61 :: boolChars c.enable_wal,
   kwEnableChecksums ++ 61 :: boolChars c.enable_checksums,
   kwEnableCompression ++ 61 :: boolChars c.enable_compression,
   kwLogLevel ++ 61 :: levelChars c.log_level]

/-- `SystemConfig::save` (`core.cpp:154-210`): refuses an invalid
config with `INVALID_ARGUMENT`, otherwise writes `savedLines`. -/
def SystemConfig.save (c : SystemConfig) : Except ErrorCode (List (List Nat)) :=
  if !c.validate then .error .INVALID_ARGUMENT
  else .ok (savedLines c)

/-- A directory string acceptable to the round-trip claim: no `'='`,
does not begin with `'#'`, no leading or trailing space or tab. -/
def dirValueOk (l : List Nat) : Bool :=
  !(l.any fun ch => ch == 61) &&
  !(l.headD 0 == 35) &&
  (match l.head? with | none => true | some c => !isSpaceTab c) &&
  (match l.getLast? with | none => true | some c => !isSpaceTab c)

theorem mem_of_headOpt {l : List Nat} {a : Nat} (h : l.head? = some a) :
    a ∈ l := by
  obtain ⟨ys, rfl⟩ := List.head?_eq_some_iff.mp h
  simp

theorem dropWhile_eq_self_of_head {p : Nat → Bool} {l : List Nat}
    (h : ∀ c, l.head? = some c → p c = false) : l.dropWhile p = l := by
  cases l with
  | nil => rfl
  | cons a t =>
    rw [List.dropWhile_cons, if_neg]
    simp [h a rfl]

theorem takeWhile_eq_self_of_all {p : Nat → Bool} :
    ∀ {l : List Nat}, (∀ c ∈ l, p c = true) → l.takeWhile p = l
  | [], _ => rfl
  | a :: t, h => by
    rw [List.takeWhile_cons, if_pos (h a (by simp))]
    rw [takeWhile_eq_self_of_all fun c hc => h c (by simp [hc])]

theorem trimRight_eq_self {l : List Nat}
    (h : ∀ c, l.getLast? = some c → isSpaceTab c = false) : trimRight l = l := by
  unfold trimRight
  rw [dropWhile_eq_self_of_head fun c hc => h c (by rwa [List.head?_reverse] at hc)]
  exact List.reverse_reverse l

theorem trim_eq_self {l : List Nat}
    (h1 : ∀ c, l.head? = some c → isSpaceTab c = false)
    (h2 : ∀ c, l.getLast? = some c → isSpaceTab c = false) : trim l = l := by
  unfold trim trimLeft
  rw [dropWhile_eq_self_of_head h1]
  exact trimRight_eq_self h2

theorem trim_eq_self_of_all {l : List Nat}
    (h : ∀ c ∈ l, isSpaceTab c = false) : trim l = l :=
  trim_eq_self (fun c hc => h c (mem_of_headOpt hc))
    (fun c hc => h c (List.mem_of_getLast?_eq_some hc))

theorem mem_natToChars {n c : Nat} (h : c ∈ natToChars n) :
    48 ≤ c ∧ c ≤ 57 := by
  unfold natToChars at h
  split at h
  · simp at h
    omega
  · simp only [List.mem_map, List.mem_reverse] at h
    obtain ⟨d, hd, rfl⟩ := h
    have := Nat.digits_lt_base (by norm_num) hd
    omega

theorem natToChars_ne_nil (n : Nat) : natToChars n ≠ [] := by
  unfold natToChars
  split
  · simp
  · simp only [ne_eq, List.map_eq_nil_iff, List.reverse_eq_nil_iff]
    exact Nat.digits_ne_nil_iff_ne_zero.mpr (by assumption)

theorem trim_natToChars (n : Nat) : trim (natToChars n) = natToChars n := by
  apply trim_eq_self_of_all
  intro c hc
  have := mem_natToChars hc
  simp [isSpaceTab]
  omega

theorem foldl_digits_natToChars (n : Nat) :
    (natToChars n).foldl (fun a c => 10 * a + (c - 48)) 0 = n := by
  unfold natToChars
  split
  · simp only [List.foldl_cons, List.foldl_nil]
    omega
  · rw [List.foldl_map]
    have hfun : (fun (x y : Nat) => 10 * x + (48 + y - 48)) =
        fun x y => 10 * x + y := by
      funext x y
      omega
    rw [hfun, List.foldl_reverse]
    have hfr : ∀ L : List Nat, L.foldr (fun y x => 10 * x + y) 0 =
        Nat.ofDigits 10 L := by
      intro L
      induction L with
      | nil => simp [Nat.ofDigits]
      | cons d t ih =>
        rw [List.foldr_cons, ih, Nat.ofDigits_cons]
        omega
    rw [hfr, Nat.ofDigits_digits]

theorem stoull_natToChars (n : Nat) : stoull (natToChars n) = some n := by
  unfold stoull
  rw [dropWhile_eq_self_of_head fun c hc => by
    have := mem_natToChars (mem_of_headOpt hc)
    simp [isSpaceTab]
    omega]
  rw [takeWhile_eq_self_of_all fun c hc => by
    have := mem_natToChars hc
    simp only [isDigit, Bool.and_eq_true, Nat.ble_eq]
    omega]
  rw [if_neg (by simp [natToChars_ne_nil n])]
  rw [foldl_digits_natToChars]

theorem stoull_trim_natToChars (n : Nat) :
    stoull (trim (natToChars n)) = some n := by
  rw [trim_natToChars, stoull_natToChars]

theorem trim_of_dirValueOk {l : List Nat} (h : dirValueOk l = true) :
    trim l = l := by
  unfold dirValueOk at h
  simp only [Bool.and_eq_true] at h
  obtain ⟨⟨_, h3⟩, h4⟩ := h
  apply trim_eq_self
  · intro ch hc
    rw [hc] at h3
    simpa using h3
  · intro ch hc
    rw [hc] at h4
    simpa using h4

theorem trim_boolChars (b : Bool) : trim (boolChars b) = boolChars b := by
  cases b <;> rfl

theorem parseBool_boolChars (b : Bool) : parseBool (boolChars b) = b := by
  cases b <;> rfl

theorem trim_levelChars (lv : LogLevel) : trim (levelChars lv) = levelChars lv := by
  cases lv <;> rfl

theorem parseLevel_levelChars (lv : LogLevel) (hlv : lv ≠ .off)
    (dflt : LogLevel) : parseLevel (levelChars lv) dflt = lv := by
  cases lv
  case off => exact absurd rfl hlv
  all_goals rfl

theorem applyLine_comment1 (c : SystemConfig) :
    applyLine c (strBytes "# VeloxDB Configuration File") = some c := rfl

theorem applyLine_comment2 (c : SystemConfig) :
    applyLine c (strBytes "# Generated automatically") = some c := rfl

theorem applyLine_blank (c : SystemConfig) : applyLine c [] = some c := rfl

theorem applyLine_bufferPoolSize (c : SystemConfig) (v : List Nat) :
    applyLine c (kwBufferPoolSize ++ 61 :: v) =
      match stoull (trim v) with
      | none => none
      | some n => some { c with buffer_pool_size := n } := rfl

theorem applyLine_maxConnections (c : SystemConfig) (v : List Nat) :
    applyLine c (kwMaxConnections ++ 61 :: v) =
      match stoull (trim v) with
      | none => none
      | some n => some { c with max_connections := n } := rfl

theorem applyLine_workerThreads (c : SystemConfig) (v : List Nat) :
    applyLine c (kwWorkerThreads ++ 61 :: v) =
      match stoull (trim v) with
      | none => none
      | some n => some { c with worker_threads := n } := rfl

theorem applyLine_dataDirectory (c : SystemConfig) (v : List Nat) :
    applyLine c (kwDataDirectory ++ 61 :: v) =
      some { c with data_directory := trim v } := rfl

theorem applyLine_logDirectory (c : SystemConfig) (v : List Nat) :
    applyLine c (kwLogDirectory ++ 61 :: v) =
      some { c with log_directory := trim v } := rfl

theorem applyLine_enableWal (c : SystemConfig) (v : List Nat) :
    applyLine c (kwEnableWal ++ 61 :: v) =
      some { c with enable_wal := parseBool (trim v) } := rfl

theorem applyLine_enableChecksums (c : SystemConfig) (v : List Nat) :
    applyLine c (kwEnableChecksums ++ 61 :: v) =
      some { c with enable_checksums := parseBool (trim v) } := rfl

theorem applyLine_enableCompression (c : SystemConfig) (v : List Nat) :
    applyLine c (kwEnableCompression ++ 61 :: v) =
      some { c with enable_compression := parseBool (trim v) } := rfl

theorem applyLine_logLevel (c : SystemConfig) (v : List Nat) :
    applyLine c (kwLogLevel ++ 61 :: v) =
      some { c with log_level := parseLevel (trim v) c.log_level } := rfl

/-- `C6`: `SystemConfig::load` gives `IO_ERROR` on a missing file;
any config it returns passed `validate()`; a parsed config failing
`validate()` yields `INVALID_ARGUMENT`, never a config value; and
`validate()` accepts only configs whose buffer pool size lies within
`MIN_BUFFER_POOL_SIZE..MAX_BUFFER_POOL_SIZE` and whose directory
paths are non-empty. -/
theorem load_validates_and_bounds (hw : Nat) (lines : List (List Nat))
    (c c' : SystemConfig) :
    SystemConfig.load none hw = .error .IO_ERROR ∧
    (SystemConfig.load (some lines) hw = .ok c → c.validate = true) ∧
    (applyLines (defaultSystemConfig hw) lines = some c' →
      c'.validate = false →
      SystemConfig.load (some lines) hw = .error .INVALID_ARGUMENT) ∧
    (c.validate = true →
      MIN_BUFFER_POOL_SIZE ≤ c.buffer_pool_size ∧
      c.buffer_pool_size ≤ MAX_BUFFER_POOL_SIZE ∧
      c.data_directory ≠ [] ∧ c.log_directory ≠ []) := by
  refine ⟨rfl, ?_, ?_, ?_⟩
  · intro h
    unfold SystemConfig.load at h
    cases hal : applyLines (defaultSystemConfig hw) lines with
    | none =>
      simp only [hal] at h
      exact absurd h (by simp)
    | some c0 =>
      simp only [hal] at h
      by_cases hv : c0.validate
      · rw [if_pos hv] at h
        cases h
        exact hv
      · rw [if_neg hv] at h
        exact absurd h (by simp)
  · intro hal hv
    unfold SystemConfig.load
    simp only [hal]
    rw [if_neg (by simp [hv])]
  · intro hv
    unfold SystemConfig.validate at hv
    simp only [Bool.and_eq_true, decide_eq_true_eq] at hv
    obtain ⟨⟨⟨⟨⟨h1, h2⟩, h3⟩, h4⟩, h5⟩, h6⟩ := hv
    refine ⟨h1, h2, ?_, ?_⟩
    · intro he
      rw [he] at h5
      simp at h5
    · intro he
      rw [he] at h6
      simp at h6

/-- `C6` witness: the default config's bounds, through the theorem. -/
theorem load_validate_witness :
    MIN_BUFFER_POOL_SIZE ≤ (defaultSystemConfig 4).buffer_pool_size ∧
    (defaultSystemConfig 4).buffer_pool_size ≤ MAX_BUFFER_POOL_SIZE ∧
    (defaultSystemConfig 4).data_directory ≠ [] ∧
    (defaultSystemConfig 4).log_directory ≠ [] :=
  (load_validates_and_bounds 4 [] (defaultSystemConfig 4)
    (defaultSystemConfig 4)).2.2.2 (by decide)

/-- `C10`: for every config that passes `validate()`, whose directory
strings contain no `'='`, do not begin with `'#'` and carry no
leading/trailing spaces or tabs, and whose log level is one of the
six named levels, `save` succeeds and `load` of the saved lines
returns the identical config. -/
theorem save_load_roundtrip (c : SystemConfig) (hw : Nat)
    (hval : c.validate = true)
    (hd1 : dirValueOk c.data_directory = true)
    (hd2 : dirValueOk c.log_directory = true)
    (hlv : c.log_level ≠ LogLevel.off) :
    SystemConfig.save c = .ok (savedLines c) ∧
    SystemConfig.load (some (savedLines c)) hw = .ok c := by
  have hsteps : applyLines (defaultSystemConfig hw) (savedLines c) = some c := by
    simp only [savedLines, applyLines, applyLine_comment1, applyLine_comment2,
      applyLine_blank, applyLine_bufferPoolSize, applyLine_maxConnections,
      applyLine_workerThreads, applyLine_dataDirectory, applyLine_logDirectory,
      applyLine_enableWal, applyLine_enableChecksums, applyLine_enableCompression,
      applyLine_logLevel, stoull_trim_natToChars, trim_boolChars,
      parseBool_boolChars, trim_levelChars, trim_of_dirValueOk hd1,
      trim_of_dirValueOk hd2, parseLevel_levelChars c.log_level hlv]
  constructor
  · unfold SystemConfig.save
    rw [hval]
    rfl
  · unfold SystemConfig.load
    simp only [hsteps]
    rw [if_pos hval]

/-- `C10` witness: the default config round trips through
`save`/`load` (with a different `hardware_concurrency` at load time). -/
theorem save_load_witness :
    SystemConfig.load (some (savedLines (defaultSystemConfig 4))) 7 =
      .ok (defaultSystemConfig 4) :=
  (save_load_roundtrip (defaultSystemConfig 4) 7 (by decide) (by decide)
    (by decide) (by decide)).2

end Velox
